import Mathlib

/-!
Shallow embedding of `src/travel_agent_api.py` (Flask endpoint `POST /api/plan-trip`).

Modelling conventions:
* JSON values appearing in the request body are modelled by `JVal`; Python's
  truthiness test on such values is `pyTruthy`, and `dict.get` (with and
  without a default) is `pyGet` / `pyGetD` over an association list.
* The handler `plan_trip` is a pure function of the content-type flag
  (`request.is_json`), the parsed body, the upstream client
  (`client.messages.create`, modelled as a function from call arguments to
  `Except`, where `.error e` models a raised exception whose `str` is `e`),
  and the clock reading `now` (the `datetime.utcnow().isoformat()` string
  taken when the success response is built, i.e. at call completion).
  Its result records the list of upstream calls actually issued, so that
  "no call" / "exactly one call" claims are statements about that list.
* An exception that escapes the handler (raised outside the `try` block) is
  the `HandlerResult.unhandled` constructor: Flask would then produce its
  default error page, not the JSON envelope.
* Python `float` arithmetic in the cost computation is modelled with exact
  rationals, and the `f"${...:.4f}"` format specifier by `formatCost`
  (scaling by 10^4 and rounding half up; no claim exercises a tie or a
  value where binary rounding differs from exact rational rounding).
-/

/-- A JSON value, as produced by Flask's `request.get_json()`. -/
inductive JVal where
  | jnull
  | jbool (b : Bool)
  | jint (n : Int)
  | jstr (s : String)
  | jlist (items : List JVal)
  | jobj (fields : List (String × JVal))

/-- Python truthiness of a JSON value (`None`, `False`, `0`, `""`, `[]`,
and the empty object are falsy). -/
def pyTruthy : JVal → Bool
  | .jnull => false
  | .jbool b => b
  | .jint n => n != 0
  | .jstr s => s != ""
  | .jlist items => !items.isEmpty
  | .jobj fields => !fields.isEmpty

mutual

/-- Python `repr` of a JSON value (string escaping inside `repr` of a string
is not modelled; no claim interpolates a non-string or quotes a string). -/
def pyRepr : JVal → String
  | .jnull => "None"
  | .jbool true => "True"
  | .jbool false => "False"
  | .jint n => toString n
  | .jstr s => "\x27" ++ s ++ "\x27"
  | .jlist items => "[" ++ pyReprList items ++ "]"
  | .jobj fields => "\x7b" ++ pyReprObj fields ++ "\x7d"

/-- Comma-separated `repr`s of the elements of a list. -/
def pyReprList : List JVal → String
  | [] => ""
  | [v] => pyRepr v
  | v :: v' :: rest => pyRepr v ++ ", " ++ pyReprList (v' :: rest)

/-- Comma-separated `repr`s of the key/value pairs of an object. -/
def pyReprObj : List (String × JVal) → String
  | [] => ""
  | [(k, v)] => "\x27" ++ k ++ "\x27: " ++ pyRepr v
  | (k, v) :: kv :: rest => "\x27" ++ k ++ "\x27: " ++ pyRepr v ++ ", " ++ pyReprObj (kv :: rest)

end

/-- Python `str` of a JSON value, as used by f-string interpolation. -/
def pyStr : JVal → String
  | .jstr s => s
  | v => pyRepr v

/-- Python `data.get(key)`: `None` (here `jnull`) when the key is absent. -/
def pyGet (data : List (String × JVal)) (key : String) : JVal :=
  (data.lookup key).getD .jnull

/-- Python `data.get(key, dflt)`: the default is used only when the key is absent;
a key present with value `null` yields `null`, not the default. -/
def pyGetD (data : List (String × JVal)) (key : String) (dflt : JVal) : JVal :=
  (data.lookup key).getD dflt

/-- The elements of a Python list being joined must all be `str`;
otherwise `str.join` raises `TypeError`. -/
def strItems : List JVal → Except String (List String)
  | [] => .ok []
  | .jstr s :: rest => (strItems rest).map (fun tail => s :: tail)
  | _ :: _ => .error "sequence item: expected str instance"

/-- Python `sep.join(v)`: joins a list of strings (or the characters of a
string, or the keys of a dict); raises `TypeError` on `None`, booleans and
numbers.  A raised exception is the `.error` case, carrying `str(e)`. -/
def pyJoin (sep : String) : JVal → Except String String
  | .jstr s => .ok (String.intercalate sep (s.data.map Char.toString))
  | .jlist items => (strItems items).map (String.intercalate sep)
  | .jobj fields => .ok (String.intercalate sep (fields.map Prod.fst))
  | _ => .error "can only join an iterable"

/-- Join a list of lines with newlines, the shape of the fixed multi-line
templates in the source. -/
def joinLines : List String → String
  | [] => ""
  | [l] => l
  | l :: l' :: rest => l ++ "\n" ++ joinLines (l' :: rest)

/-- Split a character list at newlines (inverse of joining with `"\n"`). -/
def splitLines : List Char → List (List Char)
  | [] => [[]]
  | c :: cs =>
    if c = '\n' then [] :: splitLines cs
    else
      match splitLines cs with
      | [] => [[c]]
      | l :: rest => (c :: l) :: rest

/-- The lines of a string. -/
def splitLinesStr (s : String) : List String :=
  (splitLines s.data).map String.mk

/-- The static system prompt (source lines 82-99), verbatim. -/
def system_prompt : String :=
"You are an expert travel planning AI agent with 20+ years of experience in creating personalized travel itineraries. You have deep knowledge of destinations worldwide, cultural insights, logistics optimization, and budget management.

Your approach is:
- Thorough and detail-oriented
- Culturally sensitive and authentic
- Budget-conscious while maximizing value
- Focused on creating memorable experiences
- Practical with realistic timing and logistics

You create comprehensive travel plans that include:
- Flight recommendations with specific airlines and routes
- Accommodation suggestions with pricing
- Day-by-day detailed itineraries
- Restaurant and dining recommendations
- Activity bookings and timing
- Transportation logistics
- Budget breakdown
- Pro tips and local insights"

/-- The lines of the task-prompt f-string (source lines 102-192), verbatim;
each interpolation `{x}` becomes `++ pyStr x`, and the conditional
special-requests line keeps Python's truthiness test. -/
def user_prompt_lines (destination travelers duration dates budget departure_city : JVal)
    (interests : String) (pace special_requests : JVal) : List String :=
  [ "Create a comprehensive, personalized travel itinerary with the following parameters:",
    "",
    "**Trip Overview:**",
    "- Destination: " ++ pyStr destination,
    "- Travelers: " ++ pyStr travelers,
    "- Duration: " ++ pyStr duration,
    "- Travel Dates: " ++ pyStr dates,
    "- Budget: " ++ pyStr budget,
    "- Departing From: " ++ pyStr departure_city,
    "- Interests: " ++ interests,
    "- Preferred Pace: " ++ pyStr pace,
    (if pyTruthy special_requests then "- Special Requests: " ++ pyStr special_requests else ""),
    "",
    "**Required Deliverables:**",
    "",
    "1. **EXECUTIVE SUMMARY** (2-3 paragraphs)",
    "   - Trip overview and highlights",
    "   - What makes this itinerary special",
    "   - Budget summary",
    "",
    "2. **FLIGHTS & TRANSPORTATION**",
    "   - Specific flight recommendations (airline, route, approximate pricing)",
    "   - Airport transfers",
    "   - Local transportation options",
    "   - Inter-city travel if applicable",
    "",
    "3. **ACCOMMODATIONS**",
    "   - Hotel/lodging recommendations for each location",
    "   - Why each is a good fit",
    "   - Approximate nightly rates and total",
    "   - Booking tips",
    "",
    "4. **DETAILED DAY-BY-DAY ITINERARY**",
    "   For EACH day include:",
    "   - Day number and date",
    "   - Morning activities (with times)",
    "   - Lunch recommendations",
    "   - Afternoon activities",
    "   - Dinner suggestions",
    "   - Evening options",
    "   - Approximate costs per activity",
    "   - Pro tips and insider advice",
    "",
    "5. **RESTAURANT & DINING GUIDE**",
    "   - 10-15 restaurant recommendations",
    "   - Cuisine type, price range, why recommended",
    "   - Reservation requirements",
    "",
    "6. **ACTIVITIES & EXPERIENCES**",
    "   - Must-do attractions with timing and cost",
    "   - Hidden gems",
    "   - Cultural experiences",
    "   - Family-friendly options",
    "   - Booking requirements",
    "",
    "7. **BUDGET BREAKDOWN**",
    "   - Flights: $X",
    "   - Accommodations: $X",
    "   - Activities: $X",
    "   - Meals: $X",
    "   - Transportation: $X",
    "   - Contingency: $X",
    "   - **Total: $X**",
    "",
    "8. **PRACTICAL TIPS**",
    "   - Best time to visit attractions (avoid crowds)",
    "   - What to pack",
    "   - Cultural etiquette",
    "   - Money-saving tips",
    "   - Safety considerations",
    "   - Phone/internet recommendations",
    "",
    "9. **BOOKING CHECKLIST & TIMELINE**",
    "   - What to book immediately",
    "   - What to book 1-2 months before",
    "   - What to book upon arrival",
    "   - Required reservations",
    "",
    "10. **CALENDAR EXPORT READY**",
    "    - Format the itinerary so it can be easily added to digital calendars",
    "    - Include specific times and locations",
    "",
    "**Style Guidelines:**",
    "- Be specific with names, prices, and timing",
    "- Use real hotel/restaurant names when possible",
    "- Include approximate costs in USD",
    "- Write in a friendly, enthusiastic tone",
    "- Make it practical and actionable",
    "- Include pro tips that show local knowledge",
    "",
    "Generate a complete, professional travel plan that someone could actually use to book and enjoy this trip!" ]

/-- The rendered task prompt: the template lines joined with newlines. -/
def user_prompt (destination travelers duration dates budget departure_city : JVal)
    (interests : String) (pace special_requests : JVal) : String :=
  joinLines (user_prompt_lines destination travelers duration dates budget departure_city
    interests pace special_requests)

/-- Cost formula `(input_tokens / 1_000_000 * 3) + (output_tokens / 1_000_000 * 15)`
(source line 215), with Python float arithmetic modelled exactly over the rationals. -/
def estimated_cost (input_tokens output_tokens : Nat) : ℚ :=
  (input_tokens : ℚ) / 1000000 * 3 + (output_tokens : ℚ) / 1000000 * 15

/-- The decimal digit character for `n % 10`. -/
def digitChar10 (n : Nat) : Char :=
  Char.ofNat (48 + n % 10)

/-- A natural number below 10000 rendered as exactly four decimal digits. -/
def frac4 (n : Nat) : String :=
  String.mk [digitChar10 (n / 1000), digitChar10 (n / 100), digitChar10 (n / 10), digitChar10 n]

/-- The rendering `f"${estimated_cost:.4f}"` (source line 233): a dollar sign,
the integer part, a dot, and exactly four fractional digits. -/
def formatCost (q : ℚ) : String :=
  "$" ++ toString (⌊q * 10000 + 1 / 2⌋ / 10000) ++ "." ++ frac4 (⌊q * 10000 + 1 / 2⌋ % 10000).toNat

/-- Token usage attached to an upstream response (`message.usage`). -/
structure Usage where
  input_tokens : Nat
  output_tokens : Nat

/-- One content block of an upstream response (`message.content[i]`). -/
structure ContentBlock where
  text : String

/-- An upstream response (`message`), as read by the handler. -/
structure AnthropicMessage where
  content : List ContentBlock
  usage : Usage

/-- The arguments of the single `client.messages.create` call
(source lines 196-207). -/
structure CallArgs where
  model : String
  max_tokens : Nat
  temperature : ℚ
  system : String
  messages : List (String × String)

/-- The `summary` block of the success envelope (source lines 222-228). -/
structure SummaryBlock where
  travelers : JVal
  duration : JVal
  dates : JVal
  budget : JVal
  interests : String

/-- The `metadata` block of the success envelope (source lines 229-235). -/
structure MetadataBlock where
  generatedAt : String
  inputTokens : Nat
  outputTokens : Nat
  estimatedCost : String
  model : String

/-- The success envelope (source lines 218-236). -/
structure SuccessBody where
  success : Bool
  destination : JVal
  itinerary : String
  summary : SummaryBlock
  metadata : MetadataBlock

/-- The error envelope `{error, message, statusCode}`. -/
structure ErrorBody where
  error : Bool
  message : String
  statusCode : Nat

/-- A JSON response body: success envelope or error envelope. -/
inductive ResponseBody where
  | ok (body : SuccessBody)
  | err (body : ErrorBody)

/-- The observable outcome of one request: a `(body, status)` response
together with the list of upstream calls issued, or an exception escaping
the handler (Flask then serves its default error page, not the envelope). -/
inductive HandlerResult where
  | response (body : ResponseBody) (status : Nat) (calls : List CallArgs)
  | unhandled (excMessage : String) (calls : List CallArgs)

/-- The list `['destination', 'travelers', 'duration']` (source line 60). -/
def required_fields : List String :=
  ["destination", "travelers", "duration"]

/-- The arguments of the single `client.messages.create` call (source lines
196-207), as a function of the request body and the joined interests string;
the field reads are definitionally the locals extracted at source lines 71-79. -/
def call_args (data : List (String × JVal)) (interests : String) : CallArgs :=
  { model := "claude-sonnet-4-5-20250929",
    max_tokens := 8000,
    temperature := (8 : ℚ) / 10,
    system := system_prompt,
    messages := [("user", user_prompt (pyGet data "destination") (pyGet data "travelers")
      (pyGet data "duration") (pyGetD data "dates" (.jstr "Flexible"))
      (pyGetD data "budget" (.jstr "Moderate budget"))
      (pyGetD data "departureCity" (.jstr "United States")) interests
      (pyGetD data "pace" (.jstr "moderate")) (pyGetD data "specialRequests" (.jstr "")))] }

/-- The handler `plan_trip` (source lines 31-245), translated clause by
clause.  `is_json` is `request.is_json`; `data` the parsed JSON object;
`api` the upstream client; `now` the UTC clock reading used at line 230. -/
def plan_trip (is_json : Bool) (data : List (String × JVal))
    (api : CallArgs → Except String AnthropicMessage) (now : String) : HandlerResult :=
  if !is_json then
    .response (.err ⟨true, "Content-Type must be application/json", 400⟩) 400 []
  else
    let missing_fields := required_fields.filter (fun field => !pyTruthy (pyGet data field))
    if !missing_fields.isEmpty then
      .response (.err ⟨true, "Missing required fields: " ++ String.intercalate ", " missing_fields,
        400⟩) 400 []
    else
      let destination := pyGet data "destination"
      let travelers := pyGet data "travelers"
      let duration := pyGet data "duration"
      let dates := pyGetD data "dates" (.jstr "Flexible")
      let budget := pyGetD data "budget" (.jstr "Moderate budget")
      let departure_city := pyGetD data "departureCity" (.jstr "United States")
      match pyJoin ", " (pyGetD data "interests"
          (.jlist [.jstr "sightseeing", .jstr "culture", .jstr "food"])) with
      | .error excMsg => .unhandled excMsg []
      | .ok interests =>
        let pace := pyGetD data "pace" (.jstr "moderate")
        let special_requests := pyGetD data "specialRequests" (.jstr "")
        let args : CallArgs := call_args data interests
        match api args with
        | .error e =>
          .response (.err ⟨true, "Error generating itinerary: " ++ e, 500⟩) 500 [args]
        | .ok message =>
          match message.content with
          | [] =>
            .response (.err ⟨true, "Error generating itinerary: list index out of range", 500⟩)
              500 [args]
          | block :: _ =>
            let itinerary := block.text
            let input_tokens := message.usage.input_tokens
            let output_tokens := message.usage.output_tokens
            .response (.ok
              { success := true,
                destination := destination,
                itinerary := itinerary,
                summary :=
                  { travelers := travelers,
                    duration := duration,
                    dates := dates,
                    budget := budget,
                    interests := interests },
                metadata :=
                  { generatedAt := now ++ "Z",
                    inputTokens := input_tokens,
                    outputTokens := output_tokens,
                    estimatedCost := formatCost (estimated_cost input_tokens output_tokens),
                    model := "claude-sonnet-4-5-20250929" } }) 200 [args]

/-- The calls issued during one request handling. -/
def HandlerResult.calls : HandlerResult → List CallArgs
  | .response _ _ cs => cs
  | .unhandled _ cs => cs

/-- The status code of the response (0 for an escaped exception, where Flask
serves its own error page). -/
def HandlerResult.status : HandlerResult → Nat
  | .response _ st _ => st
  | .unhandled _ _ => 0

/-- The validator notion of a missing required field as the spec words it:
the key is absent from the body, or bound to the empty string. -/
def isAbsentOrEmpty (data : List (String × JVal)) (field : String) : Bool :=
  match data.lookup field with
  | none => true
  | some (.jstr s) => s == ""
  | some _ => false

/-- A required field, when present in the body, holds a string (the declared
TripRequest type of the three required fields). -/
def isStringValued (data : List (String × JVal)) (field : String) : Bool :=
  match data.lookup field with
  | none => true
  | some (.jstr _) => true
  | some _ => false

/-- A minimal valid request body: the three required fields only. -/
def greeceData : List (String × JVal) :=
  [("destination", .jstr "Greece"), ("travelers", .jstr "2 adults"), ("duration", .jstr "5 days")]

/-- An upstream stub that always succeeds with one text block and a usage of
one million input and one million output tokens. -/
def stubOk : CallArgs → Except String AnthropicMessage :=
  fun _ => .ok ⟨[⟨"Day 1: Athens."⟩], ⟨1000000, 1000000⟩⟩

/-- An upstream stub that always raises. -/
def stubErr : CallArgs → Except String AnthropicMessage :=
  fun _ => .error "Connection error."

/-- Rebuilding a string from its character data is the identity. -/
theorem mk_data (s : String) : String.mk s.data = s := by
  cases s
  rfl

/-- A newline-free string stays newline-free under prepending a
newline-free prefix. -/
theorem no_nl_append (a s : String) (ha : '\n' ∉ a.data) (hs : '\n' ∉ s.data) :
    '\n' ∉ (a ++ s).data := by
  rw [String.data_append]
  intro hmem
  rcases List.mem_append.mp hmem with h | h
  · exact ha h
  · exact hs h

/-- Splitting a newline-free character list yields that single line. -/
theorem splitLines_no_nl (l : List Char) (h : '\n' ∉ l) : splitLines l = [l] := by
  induction l with
  | nil => rfl
  | cons c cs ih =>
    have hc : c ≠ '\n' := fun he => h (he ▸ List.mem_cons_self c cs)
    have hcs : '\n' ∉ cs := fun hm => h (List.mem_cons_of_mem c hm)
    simp only [splitLines, if_neg hc, ih hcs]

/-- Splitting after a newline-free prefix peels off that prefix as a line. -/
theorem splitLines_append (a b : List Char) (h : '\n' ∉ a) :
    splitLines (a ++ '\n' :: b) = a :: splitLines b := by
  induction a with
  | nil => simp [splitLines]
  | cons c a' ih =>
    have hc : c ≠ '\n' := fun he => h (he ▸ List.mem_cons_self c a')
    have ha' : '\n' ∉ a' := fun hm => h (List.mem_cons_of_mem c hm)
    simp only [List.cons_append, splitLines, if_neg hc, List.append_eq, ih ha']

/-- Splitting at newlines is a left inverse of joining newline-free lines. -/
theorem splitLinesStr_joinLines (ls : List String) (hne : ls ≠ [])
    (h : ∀ l ∈ ls, '\n' ∉ l.data) : splitLinesStr (joinLines ls) = ls := by
  induction ls with
  | nil => exact absurd rfl hne
  | cons l ls ih =>
    cases ls with
    | nil =>
      simp only [joinLines, splitLinesStr]
      rw [splitLines_no_nl l.data (h l (by simp))]
      simp [mk_data]
    | cons l' rest =>
      simp only [joinLines, splitLinesStr]
      have hdata : (l ++ "\n" ++ joinLines (l' :: rest)).data
          = l.data ++ '\n' :: (joinLines (l' :: rest)).data := by
        rw [String.data_append, String.data_append]
        simp
      rw [hdata, splitLines_append _ _ (h l (by simp)), List.map_cons, mk_data]
      have htail := ih (by simp) (fun x hx => h x (List.mem_cons_of_mem l hx))
      simp only [splitLinesStr] at htail
      rw [htail]

/-- Two strings differing at some character position differ. -/
theorem string_ne_of_get? (x y : String) (idx : Nat)
    (h : x.data.get? idx ≠ y.data.get? idx) : x ≠ y :=
  fun he => h (by rw [he])

/-- A string whose character at `idx` differs from that of `b` is not an
extension of `b`. -/
theorem str_ne_append (x b t : String) (idx : Nat) (hb : idx < b.data.length)
    (h : x.data.get? idx ≠ b.data.get? idx) : x ≠ b ++ t := by
  apply string_ne_of_get? x _ idx
  rw [String.data_append, List.get?_append hb]
  exact h

/-- Extensions of two strings differing at a common character position differ. -/
theorem append_ne_append (a s b t : String) (idx : Nat)
    (ha : idx < a.data.length) (hb : idx < b.data.length)
    (h : a.data.get? idx ≠ b.data.get? idx) : a ++ s ≠ b ++ t := by
  apply string_ne_of_get? _ _ idx
  rw [String.data_append, String.data_append, List.get?_append ha, List.get?_append hb]
  exact h

/-- When no interpolated field contains a newline, the lines of the rendered
task prompt are exactly the template lines. -/
theorem splitLinesStr_user_prompt (d t du da b dep i p sr : String)
    (hd : '\n' ∉ d.data) (ht : '\n' ∉ t.data) (hdu : '\n' ∉ du.data)
    (hda : '\n' ∉ da.data) (hb : '\n' ∉ b.data) (hdep : '\n' ∉ dep.data)
    (hi : '\n' ∉ i.data) (hp : '\n' ∉ p.data) (hsr : '\n' ∉ sr.data) :
    splitLinesStr (user_prompt (.jstr d) (.jstr t) (.jstr du) (.jstr da) (.jstr b)
        (.jstr dep) i (.jstr p) (.jstr sr))
      = user_prompt_lines (.jstr d) (.jstr t) (.jstr du) (.jstr da) (.jstr b)
        (.jstr dep) i (.jstr p) (.jstr sr) := by
  rw [user_prompt]
  apply splitLinesStr_joinLines
  · simp [user_prompt_lines]
  · intro l hl
    simp only [user_prompt_lines, List.mem_cons, List.not_mem_nil, or_false] at hl
    rcases hl with rfl|rfl|rfl|rfl|rfl|rfl|rfl|rfl|rfl|rfl|rfl|rfl|rfl|rfl|rfl|rfl|rfl|rfl|rfl|rfl|rfl|rfl|rfl|rfl|rfl|rfl|rfl|rfl|rfl|rfl|rfl|rfl|rfl|rfl|rfl|rfl|rfl|rfl|rfl|rfl|rfl|rfl|rfl|rfl|rfl|rfl|rfl|rfl|rfl|rfl|rfl|rfl|rfl|rfl|rfl|rfl|rfl|rfl|rfl|rfl|rfl|rfl|rfl|rfl|rfl|rfl|rfl|rfl|rfl|rfl|rfl|rfl|rfl|rfl|rfl|rfl|rfl|rfl|rfl|rfl|rfl|rfl|rfl|rfl|rfl|rfl|rfl|rfl|rfl|rfl|rfl
    all_goals first
      | decide
      | exact no_nl_append _ _ (by decide) hd
      | exact no_nl_append _ _ (by decide) ht
      | exact no_nl_append _ _ (by decide) hdu
      | exact no_nl_append _ _ (by decide) hda
      | exact no_nl_append _ _ (by decide) hb
      | exact no_nl_append _ _ (by decide) hdep
      | exact no_nl_append _ _ (by decide) hi
      | exact no_nl_append _ _ (by decide) hp
      | (split
         <;> first
          | decide
          | exact no_nl_append _ _ (by decide) hsr)

/-- C2 (amended): the rendered prompt contains the line
"- Special Requests: <value>" exactly when the value is non-empty; when it is
empty the line slot renders as an empty line (the template newline remains). -/
theorem special_requests_line (d t du da b dep i p sr : String)
    (hd : '\n' ∉ d.data) (ht : '\n' ∉ t.data) (hdu : '\n' ∉ du.data)
    (hda : '\n' ∉ da.data) (hb : '\n' ∉ b.data) (hdep : '\n' ∉ dep.data)
    (hi : '\n' ∉ i.data) (hp : '\n' ∉ p.data) (hsr : '\n' ∉ sr.data) :
    (("- Special Requests: " ++ sr) ∈ splitLinesStr (user_prompt (.jstr d) (.jstr t)
        (.jstr du) (.jstr da) (.jstr b) (.jstr dep) i (.jstr p) (.jstr sr)) ↔ sr ≠ "") ∧
    (sr = "" → (splitLinesStr (user_prompt (.jstr d) (.jstr t) (.jstr du) (.jstr da)
        (.jstr b) (.jstr dep) i (.jstr p) (.jstr sr))).get? 11 = some "") := by
  rw [splitLinesStr_user_prompt d t du da b dep i p sr hd ht hdu hda hb hdep hi hp hsr]
  refine ⟨⟨?_, ?_⟩, ?_⟩
  · intro hmem hsr0
    subst hsr0
    rw [show ("- Special Requests: " ++ "" : String) = "- Special Requests: " from rfl] at hmem
    simp only [user_prompt_lines, List.mem_cons, List.not_mem_nil, or_false] at hmem
    rcases hmem with h|h|h|h|h|h|h|h|h|h|h|h|h|h|h|h|h|h|h|h|h|h|h|h|h|h|h|h|h|h|h|h|h|h|h|h|h|h|h|h|h|h|h|h|h|h|h|h|h|h|h|h|h|h|h|h|h|h|h|h|h|h|h|h|h|h|h|h|h|h|h|h|h|h|h|h|h|h|h|h|h|h|h|h|h|h|h|h|h|h|h
    all_goals first
      | exact absurd h (by decide)
      | exact absurd h (str_ne_append _ _ _ 2 (by decide) (by decide))
  · intro hsrne
    have hpy : pyTruthy (.jstr sr) = true := by
      simp [pyTruthy, hsrne]
    simp [user_prompt_lines, hpy, pyStr]
  · intro hsr0
    subst hsr0
    rfl

set_option maxRecDepth 100000 in
/-- C2 counterexample: for the minimal Greece request with `specialRequests`
empty, the rendered prompt keeps an empty line in the slot where the
Special Requests line goes (lines 11 and 12 are both empty, against the
single blank separator of the non-empty rendering), so the prompt is not
the non-empty rendering with that line omitted entirely. -/
theorem special_requests_placeholder_cex :
    (splitLinesStr (user_prompt (.jstr "Greece") (.jstr "2 adults") (.jstr "5 days")
        (.jstr "Flexible") (.jstr "Moderate budget") (.jstr "United States")
        "sightseeing, culture, food" (.jstr "moderate") (.jstr ""))).get? 10 =
      some "- Preferred Pace: moderate" ∧
    (splitLinesStr (user_prompt (.jstr "Greece") (.jstr "2 adults") (.jstr "5 days")
        (.jstr "Flexible") (.jstr "Moderate budget") (.jstr "United States")
        "sightseeing, culture, food" (.jstr "moderate") (.jstr ""))).get? 11 = some "" ∧
    (splitLinesStr (user_prompt (.jstr "Greece") (.jstr "2 adults") (.jstr "5 days")
        (.jstr "Flexible") (.jstr "Moderate budget") (.jstr "United States")
        "sightseeing, culture, food" (.jstr "moderate") (.jstr ""))).get? 12 = some "" ∧
    (splitLinesStr (user_prompt (.jstr "Greece") (.jstr "2 adults") (.jstr "5 days")
        (.jstr "Flexible") (.jstr "Moderate budget") (.jstr "United States")
        "sightseeing, culture, food" (.jstr "moderate") (.jstr ""))).get? 13 =
      some "**Required Deliverables:**" ∧
    (splitLinesStr (user_prompt (.jstr "Greece") (.jstr "2 adults") (.jstr "5 days")
        (.jstr "Flexible") (.jstr "Moderate budget") (.jstr "United States")
        "sightseeing, culture, food" (.jstr "moderate") (.jstr "vegetarian only"))).get? 11 =
      some "- Special Requests: vegetarian only" ∧
    (splitLinesStr (user_prompt (.jstr "Greece") (.jstr "2 adults") (.jstr "5 days")
        (.jstr "Flexible") (.jstr "Moderate budget") (.jstr "United States")
        "sightseeing, culture, food" (.jstr "moderate") (.jstr "vegetarian only"))).get? 12 =
      some "" ∧
    splitLinesStr (user_prompt (.jstr "Greece") (.jstr "2 adults") (.jstr "5 days")
        (.jstr "Flexible") (.jstr "Moderate budget") (.jstr "United States")
        "sightseeing, culture, food" (.jstr "moderate") (.jstr "")) ≠
      (splitLinesStr (user_prompt (.jstr "Greece") (.jstr "2 adults") (.jstr "5 days")
        (.jstr "Flexible") (.jstr "Moderate budget") (.jstr "United States")
        "sightseeing, culture, food" (.jstr "moderate") (.jstr "vegetarian only"))).eraseIdx 11 :=
  by decide

/-- Witness for `special_requests_line` at a concrete request with
`specialRequests` set to "vegetarian only". -/
theorem special_requests_line_witness :
    (("- Special Requests: " ++ "vegetarian only") ∈ splitLinesStr (user_prompt (.jstr "Greece")
        (.jstr "2 adults") (.jstr "5 days") (.jstr "Flexible") (.jstr "Moderate budget")
        (.jstr "United States") "sightseeing, culture, food" (.jstr "moderate")
        (.jstr "vegetarian only")) ↔ "vegetarian only" ≠ "") ∧
    ("vegetarian only" = "" → (splitLinesStr (user_prompt (.jstr "Greece") (.jstr "2 adults")
        (.jstr "5 days") (.jstr "Flexible") (.jstr "Moderate budget") (.jstr "United States")
        "sightseeing, culture, food" (.jstr "moderate") (.jstr "vegetarian only"))).get? 11 =
      some "") :=
  special_requests_line "Greece" "2 adults" "5 days" "Flexible" "Moderate budget"
    "United States" "sightseeing, culture, food" "moderate" "vegetarian only"
    (by decide) (by decide) (by decide) (by decide) (by decide) (by decide)
    (by decide) (by decide) (by decide)

/-- C1: a request declared as JSON whose required fields are (when present)
strings, with at least one of them absent or empty, gets a 400 whose message
lists exactly the missing fields, comma-separated, in the checked order;
no upstream call is made. -/
theorem missing_fields_message (data : List (String × JVal))
    (api : CallArgs → Except String AnthropicMessage) (now : String)
    (htyped : ∀ f ∈ required_fields, isStringValued data f = true)
    (hmiss : required_fields.filter (isAbsentOrEmpty data) ≠ []) :
    plan_trip true data api now =
      .response (.err ⟨true, "Missing required fields: " ++
        String.intercalate ", " (required_fields.filter (isAbsentOrEmpty data)), 400⟩) 400 [] := by
  have hfe : ∀ f ∈ required_fields, (!pyTruthy (pyGet data f)) = isAbsentOrEmpty data f := by
    intro f hf
    have hsv := htyped f hf
    rcases hcase : data.lookup f with _ | v
    · simp [pyGet, isAbsentOrEmpty, hcase, pyTruthy]
    · cases v <;>
        simp_all [isStringValued, pyGet, isAbsentOrEmpty, hcase, pyTruthy, bne]
  have hfilter : required_fields.filter (fun field => !pyTruthy (pyGet data field))
      = required_fields.filter (isAbsentOrEmpty data) := List.filter_congr hfe
  have hne : (required_fields.filter (isAbsentOrEmpty data)).isEmpty = false := by
    cases h : required_fields.filter (isAbsentOrEmpty data)
    · exact absurd h hmiss
    · rfl
  simp [plan_trip, hfilter, hne]

/-- Witness for `missing_fields_message`: destination present but empty,
travelers and duration absent; all three are listed, in order. -/
theorem missing_fields_message_witness :
    plan_trip true [("destination", .jstr "")] stubOk "2026-01-01T00:00:00" =
      .response (.err ⟨true, "Missing required fields: " ++
        String.intercalate ", " (required_fields.filter
          (isAbsentOrEmpty [("destination", .jstr "")])), 400⟩) 400 [] :=
  missing_fields_message [("destination", .jstr "")] stubOk "2026-01-01T00:00:00"
    (by decide) (by decide)

/-- C9: a required field present with any falsy value (empty string, null,
false, 0, empty list) is included among the missing fields and named in the
combined 400 message, exactly like an absent field. -/
theorem falsy_required_listed (data : List (String × JVal))
    (api : CallArgs → Except String AnthropicMessage) (now : String)
    (f : String) (v : JVal) (hf : f ∈ required_fields)
    (hv : data.lookup f = some v) (hfalsy : pyTruthy v = false) :
    f ∈ required_fields.filter (fun field => !pyTruthy (pyGet data field)) ∧
    plan_trip true data api now =
      .response (.err ⟨true, "Missing required fields: " ++ String.intercalate ", "
        (required_fields.filter (fun field => !pyTruthy (pyGet data field))), 400⟩) 400 [] := by
  have hfm : f ∈ required_fields.filter (fun field => !pyTruthy (pyGet data field)) :=
    List.mem_filter.mpr ⟨hf, by simp [pyGet, hv, hfalsy]⟩
  refine ⟨hfm, ?_⟩
  have hne : (required_fields.filter fun field => !pyTruthy (pyGet data field)).isEmpty
      = false := by
    cases h : required_fields.filter fun field => !pyTruthy (pyGet data field)
    · rw [h] at hfm
      exact absurd hfm (List.not_mem_nil f)
    · rfl
  simp [plan_trip, hne]

/-- Witness for `falsy_required_listed`: destination bound to `0`. -/
theorem falsy_required_listed_witness :
    "destination" ∈ required_fields.filter (fun field => !pyTruthy
      (pyGet [("destination", .jint 0), ("travelers", .jbool false), ("duration", .jlist [])]
        field)) ∧
    plan_trip true [("destination", .jint 0), ("travelers", .jbool false),
        ("duration", .jlist [])] stubOk "2026-01-01T00:00:00" =
      .response (.err ⟨true, "Missing required fields: " ++ String.intercalate ", "
        (required_fields.filter (fun field => !pyTruthy
          (pyGet [("destination", .jint 0), ("travelers", .jbool false),
            ("duration", .jlist [])] field))), 400⟩) 400 [] :=
  falsy_required_listed [("destination", .jint 0), ("travelers", .jbool false),
    ("duration", .jlist [])] stubOk "2026-01-01T00:00:00" "destination" (.jint 0)
    (by decide) rfl rfl

/-- C6: a request not declared as JSON gets the content-type 400, and a JSON
request with missing required fields gets the missing-fields 400; in both
cases the upstream call list is empty, so validation short-circuits before
any side effect. -/
theorem validation_short_circuit (data : List (String × JVal))
    (api : CallArgs → Except String AnthropicMessage) (now : String) :
    plan_trip false data api now =
      .response (.err ⟨true, "Content-Type must be application/json", 400⟩) 400 [] ∧
    ((required_fields.filter fun field => !pyTruthy (pyGet data field)) ≠ [] →
      plan_trip true data api now =
        .response (.err ⟨true, "Missing required fields: " ++ String.intercalate ", "
          (required_fields.filter fun field => !pyTruthy (pyGet data field)), 400⟩) 400 []) := by
  constructor
  · rfl
  · intro hne
    have hemp : (required_fields.filter fun field => !pyTruthy (pyGet data field)).isEmpty
        = false := by
      cases h : required_fields.filter fun field => !pyTruthy (pyGet data field)
      · exact absurd h hne
      · rfl
    simp [plan_trip, hemp]

/-- Witness for `validation_short_circuit` on the empty body. -/
theorem validation_short_circuit_witness :
    plan_trip false [] stubOk "2026-01-01T00:00:00" =
      .response (.err ⟨true, "Content-Type must be application/json", 400⟩) 400 [] ∧
    plan_trip true [] stubOk "2026-01-01T00:00:00" =
      .response (.err ⟨true, "Missing required fields: " ++ String.intercalate ", "
        (required_fields.filter fun field => !pyTruthy (pyGet [] field)), 400⟩) 400 [] :=
  ⟨(validation_short_circuit [] stubOk "2026-01-01T00:00:00").1,
    (validation_short_circuit [] stubOk "2026-01-01T00:00:00").2 (by decide)⟩

/-- Any validated request whose interests join succeeds issues exactly the
one recorded upstream call, whatever the upstream returns. -/
theorem plan_trip_calls_eq (data : List (String × JVal))
    (api : CallArgs → Except String AnthropicMessage) (now istr : String)
    (hval : (required_fields.filter fun field => !pyTruthy (pyGet data field)).isEmpty = true)
    (hjoin : pyJoin ", " (pyGetD data "interests"
      (.jlist [.jstr "sightseeing", .jstr "culture", .jstr "food"])) = .ok istr) :
    (plan_trip true data api now).calls = [call_args data istr] := by
  simp only [plan_trip, hval, hjoin, Bool.not_true, Bool.not_false, if_false, ite_false]
  cases hx : api (call_args data istr) with
  | error e => simp [HandlerResult.calls]
  | ok m =>
    cases hc : m.content with
    | nil => simp [hc, HandlerResult.calls]
    | cons blk rest => simp [hc, HandlerResult.calls]

/-- C8: every validated request issues exactly one synchronous upstream call,
with the fixed model identifier, max_tokens 8000, temperature 0.8, the
rendered system instruction, and the rendered task instruction as the sole
conversational turn. -/
theorem single_upstream_call (data : List (String × JVal))
    (api : CallArgs → Except String AnthropicMessage) (now istr : String)
    (hval : (required_fields.filter fun field => !pyTruthy (pyGet data field)).isEmpty = true)
    (hjoin : pyJoin ", " (pyGetD data "interests"
      (.jlist [.jstr "sightseeing", .jstr "culture", .jstr "food"])) = .ok istr) :
    (plan_trip true data api now).calls = [call_args data istr] ∧
    (call_args data istr).model = "claude-sonnet-4-5-20250929" ∧
    (call_args data istr).max_tokens = 8000 ∧
    (call_args data istr).temperature = 8 / 10 ∧
    (call_args data istr).system = system_prompt ∧
    (call_args data istr).messages =
      [("user", user_prompt (pyGet data "destination") (pyGet data "travelers")
        (pyGet data "duration") (pyGetD data "dates" (.jstr "Flexible"))
        (pyGetD data "budget" (.jstr "Moderate budget"))
        (pyGetD data "departureCity" (.jstr "United States")) istr
        (pyGetD data "pace" (.jstr "moderate")) (pyGetD data "specialRequests" (.jstr "")))] :=
  ⟨plan_trip_calls_eq data api now istr hval hjoin, rfl, rfl, rfl, rfl, rfl⟩

/-- Witness for `single_upstream_call` on the minimal Greece request. -/
theorem single_upstream_call_witness :
    (plan_trip true greeceData stubOk "2026-01-01T00:00:00").calls =
      [call_args greeceData "sightseeing, culture, food"] ∧
    (call_args greeceData "sightseeing, culture, food").model = "claude-sonnet-4-5-20250929" ∧
    (call_args greeceData "sightseeing, culture, food").max_tokens = 8000 ∧
    (call_args greeceData "sightseeing, culture, food").temperature = 8 / 10 ∧
    (call_args greeceData "sightseeing, culture, food").system = system_prompt ∧
    (call_args greeceData "sightseeing, culture, food").messages =
      [("user", user_prompt (pyGet greeceData "destination") (pyGet greeceData "travelers")
        (pyGet greeceData "duration") (pyGetD greeceData "dates" (.jstr "Flexible"))
        (pyGetD greeceData "budget" (.jstr "Moderate budget"))
        (pyGetD greeceData "departureCity" (.jstr "United States")) "sightseeing, culture, food"
        (pyGetD greeceData "pace" (.jstr "moderate"))
        (pyGetD greeceData "specialRequests" (.jstr "")))] :=
  single_upstream_call greeceData stubOk "2026-01-01T00:00:00" "sightseeing, culture, food"
    (by decide) rfl

/-- C4: when the upstream call raises, whatever the failure string, the
handler returns 500 with the uniform error envelope embedding the failure
text; the envelope carries no token usage (partial usage is discarded), and
no failure cause is distinguished. -/
theorem upstream_failure_envelope (data : List (String × JVal))
    (api : CallArgs → Except String AnthropicMessage) (now istr e : String)
    (hval : (required_fields.filter fun field => !pyTruthy (pyGet data field)).isEmpty = true)
    (hjoin : pyJoin ", " (pyGetD data "interests"
      (.jlist [.jstr "sightseeing", .jstr "culture", .jstr "food"])) = .ok istr)
    (hapi : ∀ a, api a = .error e) :
    plan_trip true data api now =
      .response (.err ⟨true, "Error generating itinerary: " ++ e, 500⟩) 500
        [call_args data istr] := by
  simp [plan_trip, hval, hjoin, hapi]

/-- Witness for `upstream_failure_envelope` with a connection failure. -/
theorem upstream_failure_envelope_witness :
    plan_trip true greeceData stubErr "2026-01-01T00:00:00" =
      .response (.err ⟨true, "Error generating itinerary: " ++ "Connection error.", 500⟩) 500
        [call_args greeceData "sightseeing, culture, food"] :=
  upstream_failure_envelope greeceData stubErr "2026-01-01T00:00:00"
    "sightseeing, culture, food" "Connection error." (by decide) rfl (fun _ => rfl)

/-- The success path of the handler, as one equation: a validated request
with a successful upstream call returns the success envelope. -/
theorem plan_trip_ok (data : List (String × JVal))
    (api : CallArgs → Except String AnthropicMessage) (now istr : String)
    (m : AnthropicMessage) (blk : ContentBlock) (rest : List ContentBlock)
    (hval : (required_fields.filter fun field => !pyTruthy (pyGet data field)).isEmpty = true)
    (hjoin : pyJoin ", " (pyGetD data "interests"
      (.jlist [.jstr "sightseeing", .jstr "culture", .jstr "food"])) = .ok istr)
    (hapi : ∀ a, api a = .ok m) (hcontent : m.content = blk :: rest) :
    plan_trip true data api now =
      .response (.ok
        { success := true,
          destination := pyGet data "destination",
          itinerary := blk.text,
          summary :=
            { travelers := pyGet data "travelers",
              duration := pyGet data "duration",
              dates := pyGetD data "dates" (.jstr "Flexible"),
              budget := pyGetD data "budget" (.jstr "Moderate budget"),
              interests := istr },
          metadata :=
            { generatedAt := now ++ "Z",
              inputTokens := m.usage.input_tokens,
              outputTokens := m.usage.output_tokens,
              estimatedCost := formatCost (estimated_cost m.usage.input_tokens
                m.usage.output_tokens),
              model := "claude-sonnet-4-5-20250929" } }) 200 [call_args data istr] := by
  simp [plan_trip, hval, hjoin, hapi, hcontent]

/-- C7: when the upstream call succeeds, the handler returns 200 with the
success envelope: echo of the key request fields, the first text segment of
the response as the itinerary, and a metadata block with the clock reading
suffixed "Z", the two token counts from usage metadata, the formatted
estimated cost and the fixed model identifier. -/
theorem success_envelope (data : List (String × JVal))
    (api : CallArgs → Except String AnthropicMessage) (now istr : String)
    (m : AnthropicMessage) (blk : ContentBlock) (rest : List ContentBlock)
    (hval : (required_fields.filter fun field => !pyTruthy (pyGet data field)).isEmpty = true)
    (hjoin : pyJoin ", " (pyGetD data "interests"
      (.jlist [.jstr "sightseeing", .jstr "culture", .jstr "food"])) = .ok istr)
    (hapi : ∀ a, api a = .ok m) (hcontent : m.content = blk :: rest) :
    plan_trip true data api now =
      .response (.ok
        { success := true,
          destination := pyGet data "destination",
          itinerary := blk.text,
          summary :=
            { travelers := pyGet data "travelers",
              duration := pyGet data "duration",
              dates := pyGetD data "dates" (.jstr "Flexible"),
              budget := pyGetD data "budget" (.jstr "Moderate budget"),
              interests := istr },
          metadata :=
            { generatedAt := now ++ "Z",
              inputTokens := m.usage.input_tokens,
              outputTokens := m.usage.output_tokens,
              estimatedCost := formatCost (estimated_cost m.usage.input_tokens
                m.usage.output_tokens),
              model := "claude-sonnet-4-5-20250929" } }) 200 [call_args data istr] :=
  plan_trip_ok data api now istr m blk rest hval hjoin hapi hcontent

/-- Witness for `success_envelope` on the minimal Greece request and the
million-token stub. -/
theorem success_envelope_witness :
    plan_trip true greeceData stubOk "2026-01-01T00:00:00" =
      .response (.ok
        { success := true,
          destination := pyGet greeceData "destination",
          itinerary := ContentBlock.text ⟨"Day 1: Athens."⟩,
          summary :=
            { travelers := pyGet greeceData "travelers",
              duration := pyGet greeceData "duration",
              dates := pyGetD greeceData "dates" (.jstr "Flexible"),
              budget := pyGetD greeceData "budget" (.jstr "Moderate budget"),
              interests := "sightseeing, culture, food" },
          metadata :=
            { generatedAt := "2026-01-01T00:00:00" ++ "Z",
              inputTokens := Usage.input_tokens ⟨1000000, 1000000⟩,
              outputTokens := Usage.output_tokens ⟨1000000, 1000000⟩,
              estimatedCost := formatCost (estimated_cost
                (Usage.input_tokens ⟨1000000, 1000000⟩)
                (Usage.output_tokens ⟨1000000, 1000000⟩)),
              model := "claude-sonnet-4-5-20250929" } }) 200
        [call_args greeceData "sightseeing, culture, food"] :=
  success_envelope greeceData stubOk "2026-01-01T00:00:00" "sightseeing, culture, food"
    ⟨[⟨"Day 1: Athens."⟩], ⟨1000000, 1000000⟩⟩ ⟨"Day 1: Athens."⟩ []
    (by decide) rfl (fun _ => rfl) rfl

/-- C3: for every validated request with a successful upstream call, the
metadata holds the cost computed as input_tokens/1,000,000 x 3 +
output_tokens/1,000,000 x 15, rendered as a dollar sign, an integer part,
and exactly four decimal digits; at one million tokens each way it renders
as "$18.0000". -/
theorem estimated_cost_rendering (data : List (String × JVal))
    (api : CallArgs → Except String AnthropicMessage) (now istr : String)
    (m : AnthropicMessage) (blk : ContentBlock) (rest : List ContentBlock)
    (hval : (required_fields.filter fun field => !pyTruthy (pyGet data field)).isEmpty = true)
    (hjoin : pyJoin ", " (pyGetD data "interests"
      (.jlist [.jstr "sightseeing", .jstr "culture", .jstr "food"])) = .ok istr)
    (hapi : ∀ a, api a = .ok m) (hcontent : m.content = blk :: rest) :
    ∃ body : SuccessBody,
      plan_trip true data api now = .response (.ok body) 200 [call_args data istr] ∧
      body.metadata.estimatedCost = formatCost ((m.usage.input_tokens : ℚ) / 1000000 * 3
        + (m.usage.output_tokens : ℚ) / 1000000 * 15) ∧
      (∃ whole fracStr : String,
        body.metadata.estimatedCost = "$" ++ whole ++ "." ++ fracStr ∧ fracStr.length = 4) ∧
      (m.usage.input_tokens = 1000000 → m.usage.output_tokens = 1000000 →
        body.metadata.estimatedCost = "$18.0000") := by
  have heq := plan_trip_ok data api now istr m blk rest hval hjoin hapi hcontent
  refine ⟨_, heq, ?_, ?_, ?_⟩
  · rfl
  · exact ⟨_, _, rfl, rfl⟩
  · intro hi ho
    show formatCost (estimated_cost m.usage.input_tokens m.usage.output_tokens) = "$18.0000"
    rw [hi, ho]
    have hc : estimated_cost 1000000 1000000 = 18 := by
      unfold estimated_cost
      norm_num
    rw [hc]
    have hf : (⌊(18 : ℚ) * 10000 + 1 / 2⌋ : ℤ) = 180000 := by norm_num
    unfold formatCost
    rw [hf]
    decide

/-- Witness for `estimated_cost_rendering` at one million tokens each way. -/
theorem estimated_cost_rendering_witness :
    ∃ body : SuccessBody,
      plan_trip true greeceData stubOk "2026-01-01T00:00:00" =
        .response (.ok body) 200 [call_args greeceData "sightseeing, culture, food"] ∧
      body.metadata.estimatedCost = formatCost
        ((Usage.input_tokens ⟨1000000, 1000000⟩ : ℚ) / 1000000 * 3
          + (Usage.output_tokens ⟨1000000, 1000000⟩ : ℚ) / 1000000 * 15) ∧
      (∃ whole fracStr : String,
        body.metadata.estimatedCost = "$" ++ whole ++ "." ++ fracStr ∧ fracStr.length = 4) ∧
      (Usage.input_tokens ⟨1000000, 1000000⟩ = 1000000 →
        Usage.output_tokens ⟨1000000, 1000000⟩ = 1000000 →
        body.metadata.estimatedCost = "$18.0000") :=
  estimated_cost_rendering greeceData stubOk "2026-01-01T00:00:00"
    "sightseeing, culture, food" ⟨[⟨"Day 1: Athens."⟩], ⟨1000000, 1000000⟩⟩
    ⟨"Day 1: Athens."⟩ [] (by decide) rfl (fun _ => rfl) rfl

/-- C5: a minimal valid request (only the three required fields, as non-empty
strings) gets the documented defaults interpolated into the task prompt:
dates "Flexible", budget "Moderate budget", departure "United States",
interests joined as "sightseeing, culture, food", pace "moderate"; the
special-requests slot renders empty. -/
theorem minimal_request_defaults (d t du : String)
    (api : CallArgs → Except String AnthropicMessage) (now : String)
    (hd0 : d ≠ "") (ht0 : t ≠ "") (hdu0 : du ≠ "")
    (hd : '\n' ∉ d.data) (ht : '\n' ∉ t.data) (hdu : '\n' ∉ du.data) :
    (plan_trip true [("destination", JVal.jstr d), ("travelers", JVal.jstr t),
        ("duration", JVal.jstr du)] api now).calls =
      [call_args [("destination", JVal.jstr d), ("travelers", JVal.jstr t),
        ("duration", JVal.jstr du)] "sightseeing, culture, food"] ∧
    (call_args [("destination", JVal.jstr d), ("travelers", JVal.jstr t),
        ("duration", JVal.jstr du)] "sightseeing, culture, food").messages =
      [("user", user_prompt (.jstr d) (.jstr t) (.jstr du) (.jstr "Flexible")
        (.jstr "Moderate budget") (.jstr "United States") "sightseeing, culture, food"
        (.jstr "moderate") (.jstr ""))] ∧
    (splitLinesStr (user_prompt (.jstr d) (.jstr t) (.jstr du) (.jstr "Flexible")
        (.jstr "Moderate budget") (.jstr "United States") "sightseeing, culture, food"
        (.jstr "moderate") (.jstr ""))).get? 6 = some "- Travel Dates: Flexible" ∧
    (splitLinesStr (user_prompt (.jstr d) (.jstr t) (.jstr du) (.jstr "Flexible")
        (.jstr "Moderate budget") (.jstr "United States") "sightseeing, culture, food"
        (.jstr "moderate") (.jstr ""))).get? 7 = some "- Budget: Moderate budget" ∧
    (splitLinesStr (user_prompt (.jstr d) (.jstr t) (.jstr du) (.jstr "Flexible")
        (.jstr "Moderate budget") (.jstr "United States") "sightseeing, culture, food"
        (.jstr "moderate") (.jstr ""))).get? 8 = some "- Departing From: United States" ∧
    (splitLinesStr (user_prompt (.jstr d) (.jstr t) (.jstr du) (.jstr "Flexible")
        (.jstr "Moderate budget") (.jstr "United States") "sightseeing, culture, food"
        (.jstr "moderate") (.jstr ""))).get? 9 =
      some "- Interests: sightseeing, culture, food" ∧
    (splitLinesStr (user_prompt (.jstr d) (.jstr t) (.jstr du) (.jstr "Flexible")
        (.jstr "Moderate budget") (.jstr "United States") "sightseeing, culture, food"
        (.jstr "moderate") (.jstr ""))).get? 10 = some "- Preferred Pace: moderate" ∧
    (splitLinesStr (user_prompt (.jstr d) (.jstr t) (.jstr du) (.jstr "Flexible")
        (.jstr "Moderate budget") (.jstr "United States") "sightseeing, culture, food"
        (.jstr "moderate") (.jstr ""))).get? 11 = some "" := by
  have hval : (required_fields.filter fun field => !pyTruthy
      (pyGet [("destination", JVal.jstr d), ("travelers", JVal.jstr t),
        ("duration", JVal.jstr du)] field)).isEmpty = true := by
    simp [required_fields, pyGet, pyTruthy, hd0, ht0, hdu0, List.lookup]
  have hjoin : pyJoin ", " (pyGetD [("destination", JVal.jstr d), ("travelers", JVal.jstr t),
      ("duration", JVal.jstr du)] "interests"
      (.jlist [.jstr "sightseeing", .jstr "culture", .jstr "food"])) =
      .ok "sightseeing, culture, food" := rfl
  have hcalls := plan_trip_calls_eq [("destination", JVal.jstr d), ("travelers", JVal.jstr t),
    ("duration", JVal.jstr du)] api now "sightseeing, culture, food" hval hjoin
  have hsplit := splitLinesStr_user_prompt d t du "Flexible" "Moderate budget" "United States"
    "sightseeing, culture, food" "moderate" "" hd ht hdu (by decide) (by decide) (by decide)
    (by decide) (by decide) (by decide)
  refine ⟨hcalls, rfl, ?_, ?_, ?_, ?_, ?_, ?_⟩ <;> rw [hsplit] <;> rfl

/-- Witness for `minimal_request_defaults` on the Greece request. -/
theorem minimal_request_defaults_witness :
    (plan_trip true [("destination", JVal.jstr "Greece"), ("travelers", JVal.jstr "2 adults"),
        ("duration", JVal.jstr "5 days")] stubOk "2026-01-01T00:00:00").calls =
      [call_args [("destination", JVal.jstr "Greece"), ("travelers", JVal.jstr "2 adults"),
        ("duration", JVal.jstr "5 days")] "sightseeing, culture, food"] ∧
    (call_args [("destination", JVal.jstr "Greece"), ("travelers", JVal.jstr "2 adults"),
        ("duration", JVal.jstr "5 days")] "sightseeing, culture, food").messages =
      [("user", user_prompt (.jstr "Greece") (.jstr "2 adults") (.jstr "5 days")
        (.jstr "Flexible") (.jstr "Moderate budget") (.jstr "United States")
        "sightseeing, culture, food" (.jstr "moderate") (.jstr ""))] ∧
    (splitLinesStr (user_prompt (.jstr "Greece") (.jstr "2 adults") (.jstr "5 days")
        (.jstr "Flexible") (.jstr "Moderate budget") (.jstr "United States")
        "sightseeing, culture, food" (.jstr "moderate") (.jstr ""))).get? 6 =
      some "- Travel Dates: Flexible" ∧
    (splitLinesStr (user_prompt (.jstr "Greece") (.jstr "2 adults") (.jstr "5 days")
        (.jstr "Flexible") (.jstr "Moderate budget") (.jstr "United States")
        "sightseeing, culture, food" (.jstr "moderate") (.jstr ""))).get? 7 =
      some "- Budget: Moderate budget" ∧
    (splitLinesStr (user_prompt (.jstr "Greece") (.jstr "2 adults") (.jstr "5 days")
        (.jstr "Flexible") (.jstr "Moderate budget") (.jstr "United States")
        "sightseeing, culture, food" (.jstr "moderate") (.jstr ""))).get? 8 =
      some "- Departing From: United States" ∧
    (splitLinesStr (user_prompt (.jstr "Greece") (.jstr "2 adults") (.jstr "5 days")
        (.jstr "Flexible") (.jstr "Moderate budget") (.jstr "United States")
        "sightseeing, culture, food" (.jstr "moderate") (.jstr ""))).get? 9 =
      some "- Interests: sightseeing, culture, food" ∧
    (splitLinesStr (user_prompt (.jstr "Greece") (.jstr "2 adults") (.jstr "5 days")
        (.jstr "Flexible") (.jstr "Moderate budget") (.jstr "United States")
        "sightseeing, culture, food" (.jstr "moderate") (.jstr ""))).get? 10 =
      some "- Preferred Pace: moderate" ∧
    (splitLinesStr (user_prompt (.jstr "Greece") (.jstr "2 adults") (.jstr "5 days")
        (.jstr "Flexible") (.jstr "Moderate budget") (.jstr "United States")
        "sightseeing, culture, food" (.jstr "moderate") (.jstr ""))).get? 11 = some "" :=
  minimal_request_defaults "Greece" "2 adults" "5 days" stubOk "2026-01-01T00:00:00"
    (by decide) (by decide) (by decide) (by decide) (by decide) (by decide)

/-- C10: a request that passes validation but supplies `interests` as JSON
null keeps the null (the default applies only to an absent key), and the
comma-join then raises an uncaught TypeError before any upstream call; the
exception escapes the handler (no JSON envelope). -/
theorem null_interests_unhandled (data : List (String × JVal))
    (api : CallArgs → Except String AnthropicMessage) (now : String)
    (hval : (required_fields.filter fun field => !pyTruthy (pyGet data field)).isEmpty = true)
    (hint : data.lookup "interests" = some .jnull) :
    pyGetD data "interests" (.jlist [.jstr "sightseeing", .jstr "culture", .jstr "food"]) =
      .jnull ∧
    plan_trip true data api now = .unhandled "can only join an iterable" [] := by
  have hg : pyGetD data "interests"
      (.jlist [.jstr "sightseeing", .jstr "culture", .jstr "food"]) = .jnull := by
    simp [pyGetD, hint]
  refine ⟨hg, ?_⟩
  simp [plan_trip, hval, hg, pyJoin]

/-- Witness for `null_interests_unhandled`: the Greece request with
`interests` explicitly null. -/
theorem null_interests_unhandled_witness :
    pyGetD [("destination", JVal.jstr "Greece"), ("travelers", JVal.jstr "2 adults"),
        ("duration", JVal.jstr "5 days"), ("interests", JVal.jnull)] "interests"
      (.jlist [.jstr "sightseeing", .jstr "culture", .jstr "food"]) = .jnull ∧
    plan_trip true [("destination", JVal.jstr "Greece"), ("travelers", JVal.jstr "2 adults"),
        ("duration", JVal.jstr "5 days"), ("interests", JVal.jnull)] stubOk
      "2026-01-01T00:00:00" = .unhandled "can only join an iterable" [] :=
  null_interests_unhandled [("destination", JVal.jstr "Greece"),
    ("travelers", JVal.jstr "2 adults"), ("duration", JVal.jstr "5 days"),
    ("interests", JVal.jnull)] stubOk "2026-01-01T00:00:00" (by decide) rfl
